import Mathlib

/-!
Verification of the obiwan vocal-analysis pipeline.

This file gives a shallow embedding, in Lean 4, of the parts of the
repository that the verified properties talk about:

* `virtual_listener.py` — the pitch fusion engine (`_create_combined_label`),
  note naming (`freq_to_note`), technique classification
  (`classify_technique`), the breath-position detector inside
  `analyze_chunk`, and the performance scorer
  (`_calculate_performance_score`);
* `professional_vocal_analyzer.py` — register and vowel classification
  (`_classify_register_advanced`, `_classify_vowel_shape`), vibrato type
  classification (`_analyze_vibrato_professional`), and vocal health
  (`_assess_vocal_health`, `_calculate_hnr`);
* `label_database.py` — the persistence layer (`save_label`, `get_label`,
  `_row_to_dict`).

Modelling conventions.  Python floats are embedded as exact rationals `ℚ`;
all the concrete inputs appearing below are far from any float-rounding
boundary.  Transcendental library routines with no exact rational value
(`np.log2`, `math.log10`) are passed in as explicit function parameters
(`log2`, `log10`): every theorem whose conclusion depends on such a value
carries a hypothesis pinning the parameter to an interval that the true
mathematical function satisfies at the relevant argument, and the doc
comment records the true value.  `np.sqrt` in the vowel classifier is
eliminated by comparing squared Euclidean distances (square root is
strictly monotone on nonnegatives, so every comparison is unchanged).
Fallible external calls (HTTP engines, `try`/`except`) are embedded as
`Option`-valued inputs and outputs: `none` is a timed-out, failed or
empty engine response.
-/

namespace Obiwan

/-- Result of one pitch engine for one frame, as produced by
`_analyze_with_crepe` / `_analyze_with_spice` in `virtual_listener.py`
(a dict with a mean `frequency` and a mean `confidence`). -/
structure EngineResult where
  frequency : ℚ
  confidence : ℚ
  deriving Repr, DecidableEq

/-- Embedding of `_analyze_with_crepe` (`virtual_listener.py`).  The HTTP
response is modelled as `Option (List (ℚ × ℚ))`: `none` is a timeout,
raised exception or non-200 status (all of which make the Python function
return `None` through its `try`/`except`), `some resp` is the parallel
`pitches`/`confidences` arrays zipped into pairs.  The function keeps the
samples whose confidence strictly exceeds `min_confidence = 0.6`
(`virtual_listener.py` line 44) and, when at least one survives, returns
the mean pitch and mean confidence of the survivors; otherwise `None`. -/
def analyze_with_engine (resp : Option (List (ℚ × ℚ))) : Option EngineResult :=
  match resp with
  | none => none
  | some samples =>
    if samples = [] then none
    else
      let valid := samples.filter (fun s => (3 : ℚ)/5 < s.2)
      if valid = [] then none
      else
        some { frequency := (valid.map Prod.fst).sum / valid.length,
               confidence := (valid.map Prod.snd).sum / valid.length }

/-- Note-name table of `freq_to_note` (`virtual_listener.py` line 252),
written as the concatenation of its two tritone halves. -/
def noteNames : List String :=
  ["C", "C#", "D", "D#", "E", "F"] ++ ["F#", "G", "G#", "A", "A#", "B"]

/-- Embedding of `freq_to_note` (`virtual_listener.py` lines 246-260).
`log2` stands for `np.log2`.  Python's float `//` is mathematical floor
division and `%` the corresponding nonnegative remainder; `int(...)` of
those nonnegative values is again the floor, embedded with `Int.floor`. -/
def freq_to_note (log2 : ℚ → ℚ) (freq : ℚ) : String :=
  if freq ≤ 0 then "C4"
  else
    let halfsteps : ℚ := 12 * log2 (freq / 440)
    let halfsteps_from_c0 : ℚ := halfsteps + 57
    let octave : ℤ := ⌊halfsteps_from_c0 / 12⌋
    let note_idx : ℕ := (⌊halfsteps_from_c0 - 12 * (octave : ℚ)⌋).toNat
    (noteNames.getD note_idx "") ++ toString octave

/-- Embedding of `classify_technique` (`virtual_listener.py` lines
262-296) as called from `_create_combined_label`, i.e. with
`formant_data=None` and `amplitude=None`, so only the frequency branches
and the passaggio band are live. -/
def classify_technique (freq : ℚ) : String :=
  if freq ≤ 0 then "unknown"
  else
    let basic := if freq < 200 then "chest" else if freq < 400 then "mixed" else "head"
    if 350 ≤ freq ∧ freq ≤ 450 then "passaggio" else basic

/-- The combined per-frame label built by `_create_combined_label`
(`virtual_listener.py` lines 391-438).  The `vibrato` and `dynamics`
fields of the Python dict are the results of `_detect_vibrato_advanced()`
and `_analyze_dynamics(amplitude)` — both read only session history, so
they are passed through here as already-computed values of opaque types. -/
structure CombinedLabel (V D : Type) where
  time : ℚ
  frequency : ℚ
  note : String
  confidence : ℚ
  technique : String
  vibrato : V
  dynamics : D
  amplitude : ℚ
  source : String

/-- Embedding of `_create_combined_label` (`virtual_listener.py` lines
391-438).  `crepe` / `spice` are the (possibly absent) engine results;
if both are absent the function returns `None`; if both are present the
frequency is the confidence-weighted average and the confidence the
arithmetic mean; with exactly one present, that engine's values pass
through unchanged. -/
def create_combined_label (log2 : ℚ → ℚ) {V D : Type}
    (crepe spice : Option EngineResult)
    (time_offset amplitude : ℚ) (vibrato : V) (dynamics : D) :
    Option (CombinedLabel V D) :=
  match crepe, spice with
  | none, none => none
  | some c, some s =>
    let freq := (c.frequency * c.confidence + s.frequency * s.confidence) /
                (c.confidence + s.confidence)
    let conf := (c.confidence + s.confidence) / 2
    some { time := time_offset, frequency := freq, note := freq_to_note log2 freq,
           confidence := conf, technique := classify_technique freq,
           vibrato := vibrato, dynamics := dynamics,
           amplitude := amplitude, source := "CREPE+SPICE" }
  | some c, none =>
    some { time := time_offset, frequency := c.frequency,
           note := freq_to_note log2 c.frequency,
           confidence := c.confidence, technique := classify_technique c.frequency,
           vibrato := vibrato, dynamics := dynamics,
           amplitude := amplitude, source := "CREPE" }
  | none, some s =>
    some { time := time_offset, frequency := s.frequency,
           note := freq_to_note log2 s.frequency,
           confidence := s.confidence, technique := classify_technique s.frequency,
           vibrato := vibrato, dynamics := dynamics,
           amplitude := amplitude, source := "SPICE" }

end Obiwan

namespace Obiwan

/-- Helper: evaluate `freq_to_note` once the pitch's position within the
semitone grid is known.  If `12·log2(freq/440) + 57` lies in `[k, k+1)`
with `k = 12·o + i` and `i < 12`, the produced string is the `i`-th note
name followed by the octave `o`. -/
theorem freq_to_note_eval (log2 : ℚ → ℚ) (freq : ℚ) (hf : 0 < freq)
    (k o : ℤ) (i : ℕ) (hi : i < 12) (hk : k = 12 * o + i)
    (h1 : (k : ℚ) ≤ 12 * log2 (freq / 440) + 57)
    (h2 : 12 * log2 (freq / 440) + 57 < k + 1) :
    freq_to_note log2 freq = (noteNames.getD i "") ++ toString o := by
  have hf' : ¬ freq ≤ 0 := not_le.mpr hf
  have hkq : (k : ℚ) = 12 * (o : ℚ) + (i : ℚ) := by exact_mod_cast hk
  have hiq : (i : ℚ) ≤ 11 := by exact_mod_cast Nat.lt_succ_iff.mp hi
  have hiq0 : (0 : ℚ) ≤ (i : ℚ) := by positivity
  have hoct : ⌊(12 * log2 (freq / 440) + 57) / 12⌋ = o := by
    rw [Int.floor_eq_iff]
    constructor
    · rw [le_div_iff₀ (by norm_num : (0:ℚ) < 12)]
      linarith
    · rw [div_lt_iff₀ (by norm_num : (0:ℚ) < 12)]
      linarith
  have hidx : ⌊12 * log2 (freq / 440) + 57 - 12 * (o : ℚ)⌋ = (i : ℤ) := by
    rw [Int.floor_eq_iff]
    push_cast
    constructor
    · linarith
    · linarith
  simp only [freq_to_note, if_neg hf', hoct, hidx, Int.toNat_natCast]

/-- C1.  Pitch fusion law (`_create_combined_label`,
`virtual_listener.py` lines 400-406): whenever both engines return an
estimate — in particular whenever both confidences exceed the 0.5
threshold, as the claim is conditioned — the fused frequency is the
confidence-weighted average `(f1·c1 + f2·c2)/(c1 + c2)` and the fused
confidence is the arithmetic mean `(c1 + c2)/2`.  Exact over `ℚ`, so the
floating-point tolerance in the claim is satisfied with slack zero. -/
theorem C1_fusion_law (log2 : ℚ → ℚ) {V D : Type} (c s : EngineResult)
    (t a : ℚ) (v : V) (dyn : D)
    (hc : (1:ℚ)/2 < c.confidence) (hs : (1:ℚ)/2 < s.confidence) :
    (create_combined_label log2 (some c) (some s) t a v dyn).map
        (fun l => (l.frequency, l.confidence)) =
      some ((c.frequency * c.confidence + s.frequency * s.confidence) /
              (c.confidence + s.confidence),
            (c.confidence + s.confidence) / 2) := rfl

/-- Witness for `C1_fusion_law` at the concrete estimates
(440 Hz, 0.9) and (438 Hz, 0.8). -/
theorem C1_fusion_law_witness :
    (1:ℚ)/2 < (9:ℚ)/10 ∧ (1:ℚ)/2 < (4:ℚ)/5 ∧
    (create_combined_label (fun _ => 0) (some ⟨440, 9/10⟩) (some ⟨438, 4/5⟩)
        0 0 () ()).map (fun l => (l.frequency, l.confidence)) =
      some ((440 * (9/10) + 438 * (4/5)) / (9/10 + 4/5), (9/10 + 4/5) / 2) :=
  ⟨by norm_num, by norm_num,
    C1_fusion_law (fun _ => 0) ⟨440, 9/10⟩ ⟨438, 4/5⟩ 0 0 () ()
      (by norm_num) (by norm_num)⟩

end Obiwan

namespace Obiwan

/-- C2 counterexample.  At the claimed scenario — engines (440 Hz, 0.9)
and (438 Hz, 0.8) — the fused frequency is 7464/17 ≈ 439.0588 Hz, and
`freq_to_note` names it "G#4", not "A4" as the claim states: the code
takes `int(halfsteps_from_c0 % 12)`, i.e. the floor of 56.9629... % 12 =
8.9629..., selecting index 8 ("G#") instead of rounding to the nearest
semitone.  The oracle value -309/100000 = -0.00309 stands for
log2(439.0588/440) = -0.0030893...; any value in [-1/12, 0) — an interval
that safely contains the true one — yields the same note (see
`C2_two_engine_scenario`). -/
theorem C2_note_counterexample :
    ((create_combined_label (fun _ => -309/100000) (some ⟨440, 9/10⟩)
        (some ⟨438, 4/5⟩) 0 0 () ()).map (fun l => l.note) = some "G#4") ∧
    ("G#4" : String) ≠ "A4" := by
  constructor
  · simp only [create_combined_label, Option.map, freq_to_note, noteNames]
    norm_num
    rfl
  · decide

/-- C2 (amended).  Two engines reporting (440 Hz, 0.9) and (438 Hz, 0.8)
fuse to frequency 7464/17 ≈ 439.0588 Hz (within 0.01 of the claimed
439.05) and confidence 0.85, but the note name produced by
`freq_to_note` is "G#4", not "A4", because the semitone index is
truncated downward rather than rounded.  `log2` stands for `np.log2`;
the hypotheses pin its value at the fused ratio 933/935 to [-1/12, 0),
an interval containing the true log2(933/935) = -0.0030893... . -/
theorem C2_two_engine_scenario (log2 : ℚ → ℚ) {V D : Type} (t a : ℚ) (v : V) (dyn : D)
    (h1 : -(1:ℚ)/12 ≤ log2 (933/935)) (h2 : log2 (933/935) < 0) :
    (create_combined_label log2 (some ⟨440, 9/10⟩) (some ⟨438, 4/5⟩) t a v dyn).map
        (fun l => (l.frequency, l.confidence, l.note)) =
      some (7464/17, 17/20, "G#4") ∧ |(7464 : ℚ)/17 - 43905/100| ≤ 1/100 := by
  have harg : (7464 : ℚ)/17/440 = 933/935 := by norm_num
  have hnote : freq_to_note log2 (7464/17) = "G#4" := by
    have h := freq_to_note_eval log2 (7464/17) (by norm_num) 56 4 8 (by norm_num) (by norm_num)
      (by rw [harg]; push_cast; linarith) (by rw [harg]; push_cast; linarith)
    simpa [noteNames] using h
  refine ⟨?_, by rw [abs_le]; constructor <;> norm_num⟩
  have hfr : (440 * ((9:ℚ)/10) + 438 * (4/5)) / ((9:ℚ)/10 + 4/5) = 7464/17 := by norm_num
  simp only [create_combined_label, Option.map]
  rw [hfr, hnote]
  norm_num

/-- Witness for `C2_two_engine_scenario` with the concrete oracle value
-309/100000 = -0.00309 for log2(933/935). -/
theorem C2_two_engine_scenario_witness :
    (-(1:ℚ)/12 ≤ -309/100000) ∧ ((-309/100000 : ℚ) < 0) ∧
    ((create_combined_label (fun _ => (-309/100000 : ℚ)) (some ⟨440, 9/10⟩)
          (some ⟨438, 4/5⟩) 0 0 () ()).map
        (fun l => (l.frequency, l.confidence, l.note)) =
      some (7464/17, 17/20, "G#4") ∧ |(7464 : ℚ)/17 - 43905/100| ≤ 1/100) :=
  ⟨by norm_num, by norm_num,
    C2_two_engine_scenario (fun _ => -309/100000) 0 0 () ()
      (by norm_num) (by norm_num)⟩

/-- C8.  Graceful degradation (`_analyze_with_crepe` lines 321-353 and
`_create_combined_label` lines 391-414 of `virtual_listener.py`): a
failed, timed-out or empty engine response yields an absent (`none`)
estimate rather than an error; when exactly one engine is present the
fused output passes its frequency and confidence through unchanged,
whichever side it is; and the concrete single report (196 Hz, 0.85)
yields fused frequency 196, confidence 0.85 and note "G3".  `log2`
stands for `np.log2`; the hypotheses pin its value at 196/440 to
[-7/6, -13/12), an interval containing the true
log2(196/440) = -1.1666523... . -/
theorem C8_single_engine_passthrough (log2 : ℚ → ℚ) {V D : Type} (e : EngineResult)
    (t a : ℚ) (v : V) (dyn : D)
    (hg1 : -(7:ℚ)/6 ≤ log2 (196/440)) (hg2 : log2 (196/440) < -13/12) :
    (analyze_with_engine none = none) ∧
    ((create_combined_label log2 (some e) none t a v dyn).map
        (fun l => (l.frequency, l.confidence)) = some (e.frequency, e.confidence)) ∧
    ((create_combined_label log2 none (some e) t a v dyn).map
        (fun l => (l.frequency, l.confidence)) = some (e.frequency, e.confidence)) ∧
    ((create_combined_label log2 (some ⟨196, 17/20⟩) none t a v dyn).map
        (fun l => (l.frequency, l.confidence, l.note)) = some (196, 17/20, "G3")) := by
  refine ⟨rfl, rfl, rfl, ?_⟩
  have hnote : freq_to_note log2 196 = "G3" := by
    have h := freq_to_note_eval log2 196 (by norm_num) 43 3 7 (by norm_num) (by norm_num)
      (by push_cast; linarith) (by push_cast; linarith)
    simpa [noteNames] using h
  simp only [create_combined_label, Option.map]
  rw [hnote]

/-- Witness for `C8_single_engine_passthrough` with the concrete oracle
value -116665/100000 = -1.16665 for log2(196/440). -/
theorem C8_single_engine_passthrough_witness :
    (-(7:ℚ)/6 ≤ -116665/100000) ∧ ((-116665/100000 : ℚ) < -13/12) ∧
    ((create_combined_label (fun _ => (-116665/100000 : ℚ))
          (some ⟨196, 17/20⟩) none 0 0 () ()).map
        (fun l => (l.frequency, l.confidence, l.note)) = some (196, 17/20, "G3")) :=
  ⟨by norm_num, by norm_num,
    (C8_single_engine_passthrough (fun _ => -116665/100000) ⟨196, 17/20⟩ 0 0 () ()
      (by norm_num) (by norm_num)).2.2.2⟩

end Obiwan

namespace Obiwan

/-- State of the breath detector inside `VirtualListener.analyze_chunk`
(`virtual_listener.py`): the rolling amplitude history appended in step 3
(lines 197-203; each entry keeps the frame time and amplitude — the rms
field is unused downstream and omitted) and the breath positions recorded
in step 6 (lines 240-244). -/
structure BreathState where
  amplitude_history : List (ℚ × ℚ)
  breath_positions : List ℚ
  deriving Repr, DecidableEq

/-- Embedding of the amplitude/breath part of `analyze_chunk`
(`virtual_listener.py` lines 197-203 and 240-244) for one frame: the
(time, amplitude) pair is appended to the history first; then, if the
current amplitude is strictly below the fixed constant 0.01 and the
history holds more than 5 entries and the last 5 recorded amplitudes
(current frame included, via Python's `history[-5:]`) are all strictly
below the fixed constant 0.02, the current `time_offset` is appended to
`breath_positions`. -/
def analyze_chunk_breath (st : BreathState) (time_offset amplitude : ℚ) : BreathState :=
  let hist := st.amplitude_history ++ [(time_offset, amplitude)]
  if amplitude < 1/100 ∧ 5 < hist.length then
    let recent := (hist.drop (hist.length - 5)).map Prod.snd
    if ∀ x ∈ recent, x < 2/100 then
      ⟨hist, st.breath_positions ++ [time_offset]⟩
    else ⟨hist, st.breath_positions⟩
  else ⟨hist, st.breath_positions⟩

/-- Feed a list of frame amplitudes to the breath detector one frame at a
time, with frame times 0, 1, 2, ... so that a recorded position names the
frame index. -/
def runBreathDetectorAux (st : BreathState) (t : ℚ) : List ℚ → BreathState
  | [] => st
  | a :: rest => runBreathDetectorAux (analyze_chunk_breath st t a) (t + 1) rest

/-- Run the breath detector over a whole amplitude sequence from the
fresh session state (empty history, no breath positions). -/
def runBreathDetector (amps : List ℚ) : BreathState :=
  runBreathDetectorAux ⟨[], []⟩ 0 amps

/-- C3 counterexample.  Feeding the claimed amplitude sequence
[0.5, 0.4, 0.01, 0.01, 0.01, 0.01, 0.01] frame-by-frame records no
breath position at all — in particular none at index 2: the code
requires the current amplitude to be strictly below the fixed constant
0.01 (not below 10% of the session mean, which here would be 0.0648...),
and 0.01 < 0.01 is false at every frame. -/
theorem C3_breath_scenario_counterexample :
    (runBreathDetector [1/2, 2/5, 1/100, 1/100, 1/100, 1/100, 1/100]).breath_positions = [] := by
  norm_num [runBreathDetector, runBreathDetectorAux, analyze_chunk_breath]

/-- C3 (amended).  A breath position is recorded at a frame exactly when
the frame's amplitude is strictly below the fixed constant 0.01, the
amplitude history (current frame included) holds more than 5 entries, and
the last 5 recorded amplitudes (current frame included) are all strictly
below the fixed constant 0.02; the recorded value is the current frame's
time, i.e. the last frame of the low run, not the first.  The thresholds
are absolute constants, not fractions of the session mean amplitude.
Consequently the claimed sequence records nothing (see the
counterexample), while the variant with 0.009 in place of 0.01 records
its first and only breath at index 6. -/
theorem C3_breath_fixed_thresholds :
    (∀ (st : BreathState) (t a : ℚ),
      (analyze_chunk_breath st t a).breath_positions = st.breath_positions ++ [t] ↔
        (a < 1/100 ∧ 5 < st.amplitude_history.length + 1 ∧
          ∀ x ∈ (st.amplitude_history ++ [(t, a)]).drop (st.amplitude_history.length + 1 - 5),
            x.2 < 2/100)) ∧
    (runBreathDetector [1/2, 2/5, 9/1000, 9/1000, 9/1000, 9/1000, 9/1000]).breath_positions
      = [6] := by
  constructor
  · intro st t a
    have hlen : (st.amplitude_history ++ [(t, a)]).length = st.amplitude_history.length + 1 := by
      simp
    simp only [analyze_chunk_breath, hlen]
    split_ifs with h1 h2
    · exact iff_of_true rfl
        ⟨h1.1, h1.2, fun x hx => h2 x.2 (List.mem_map_of_mem _ hx)⟩
    · refine iff_of_false ?_ ?_
      · intro hcontra
        have := congrArg List.length hcontra
        simp at this
      · rintro ⟨-, -, hall⟩
        refine h2 fun y hy => ?_
        rcases List.mem_map.mp hy with ⟨x, hx, rfl⟩
        exact hall x hx
    · refine iff_of_false ?_ ?_
      · intro hcontra
        have := congrArg List.length hcontra
        simp at this
      · rintro ⟨ha, hl, -⟩
        exact h1 ⟨ha, hl⟩
  · norm_num [runBreathDetector, runBreathDetectorAux, analyze_chunk_breath]

end Obiwan

namespace Obiwan

/-- Vibrato summary consumed by the scorer
(`advanced_stats['vibrato_analysis']`, `virtual_listener.py` lines
628-639): detection flag, average rate (Hz), average depth (cents) and
mean consistency.  The consistency of a frame is
`1 - std(pitch_changes)/mean(|pitch_changes|)` (line 476), which is
negative whenever the deviation of the pitch steps exceeds their mean
magnitude, so no sign guarantee exists for this field. -/
structure VibratoStats where
  detected : Bool
  average_rate : ℚ
  average_depth : ℚ
  consistency : ℚ
  deriving Repr, DecidableEq

/-- The session-level signals read by `_calculate_performance_score`
(`virtual_listener.py` lines 692-741) out of `basic_stats` and
`advanced_stats`. -/
structure ScoreInputs where
  confidence_avg : ℚ
  variety_score : ℚ
  vibrato : VibratoStats
  dynamic_variety : ℚ
  breath_support_score : ℚ
  detected_transitions : ℚ
  deriving Repr, DecidableEq

/-- The `score_components` dict built by `_calculate_performance_score`. -/
structure ScoreBreakdown where
  pitch_accuracy : ℚ
  technique_variety : ℚ
  vibrato_quality : ℚ
  dynamics_control : ℚ
  breath_support : ℚ
  passaggio_handling : ℚ
  deriving Repr, DecidableEq

/-- Embedding of the component computations of
`_calculate_performance_score` (`virtual_listener.py` lines 694-738):
pitch `min(conf·25, 25)`; technique `min(variety·5, 20)`; vibrato, when
detected, `min(max(0, 10 - |rate-5.5|·2) + max(0, 5 - |depth-50|·0.1) +
consistency·5, 15)` and otherwise the base score `min(5, 15)`; dynamics
`min(variety·5, 15)`; breath `max(0, min((support-70)·0.5, 15))`;
passaggio `min(transitions·5, 10)`. -/
def score_breakdown (inp : ScoreInputs) : ScoreBreakdown :=
  { pitch_accuracy := min (inp.confidence_avg * 25) 25,
    technique_variety := min (inp.variety_score * 5) 20,
    vibrato_quality :=
      if inp.vibrato.detected then
        min (max 0 (10 - |inp.vibrato.average_rate - 11/2| * 2) +
             max 0 (5 - |inp.vibrato.average_depth - 50| * (1/10)) +
             inp.vibrato.consistency * 5) 15
      else min 5 15,
    dynamics_control := min (inp.dynamic_variety * 5) 15,
    breath_support := max 0 (min ((inp.breath_support_score - 70) * (1/2)) 15),
    passaggio_handling := min (inp.detected_transitions * 5) 10 }

/-- `total_score = sum(score_components.values())`
(`virtual_listener.py` line 741); the code applies no clamp to it. -/
def total_score (inp : ScoreInputs) : ℚ :=
  (score_breakdown inp).pitch_accuracy + (score_breakdown inp).technique_variety +
  (score_breakdown inp).vibrato_quality + (score_breakdown inp).dynamics_control +
  (score_breakdown inp).breath_support + (score_breakdown inp).passaggio_handling

/-- Python's `round(x, 1)`: round to one decimal digit, ties to even
(the reported `total_score` field on line 761). -/
def pyRound1 (x : ℚ) : ℚ :=
  let n : ℤ := ⌊10 * x⌋
  let fr : ℚ := 10 * x - n
  (if 1/2 < fr then ((n + 1 : ℤ) : ℚ)
   else if fr < 1/2 then (n : ℚ)
   else if 2 ∣ n then (n : ℚ) else ((n + 1 : ℤ) : ℚ)) / 10

/-- Grade buckets of `_calculate_performance_score`
(`virtual_listener.py` lines 744-758), applied to the unrounded total. -/
def grade_of (total : ℚ) : String :=
  if 90 ≤ total then "S" else if 80 ≤ total then "A" else if 70 ≤ total then "B"
  else if 60 ≤ total then "C" else "D"

/-- Order of the grade letters, best = largest, for stating that the
grade is monotone in the total. -/
def gradeRank (g : String) : ℕ :=
  if g = "S" then 4 else if g = "A" then 3 else if g = "B" then 2
  else if g = "C" then 1 else 0

/-- Helper: Python's one-decimal rounding keeps a value inside [0, 100]. -/
theorem pyRound1_mem (x : ℚ) (h0 : 0 ≤ x) (h1 : x ≤ 100) :
    0 ≤ pyRound1 x ∧ pyRound1 x ≤ 100 := by
  have hfl : (⌊10 * x⌋ : ℚ) ≤ 10 * x := Int.floor_le _
  have hfl2 : 10 * x < ⌊10 * x⌋ + 1 := Int.lt_floor_add_one _
  have hn0 : (0 : ℤ) ≤ ⌊10 * x⌋ := Int.floor_nonneg.mpr (by positivity)
  have hn0q : (0 : ℚ) ≤ (⌊10 * x⌋ : ℚ) := by exact_mod_cast hn0
  have hcap : ∀ hq : (⌊10 * x⌋ : ℚ) < 1000, (⌊10 * x⌋ : ℚ) ≤ 999 := by
    intro hq
    have h999 : ⌊10 * x⌋ ≤ 999 :=
      Int.lt_add_one_iff.mp (show ⌊10 * x⌋ < 1000 by exact_mod_cast hq)
    exact_mod_cast h999
  simp only [pyRound1]
  split_ifs with hf1 hf2 hev
  · have h999 := hcap (by linarith)
    constructor
    · positivity
    · push_cast
      linarith
  · constructor
    · positivity
    · have : (⌊10 * x⌋ : ℚ) ≤ 1000 := by linarith
      linarith
  · constructor
    · positivity
    · have : (⌊10 * x⌋ : ℚ) ≤ 1000 := by linarith
      linarith
  · have heq : 10 * x - ⌊10 * x⌋ = 1/2 := le_antisymm (not_lt.mp hf1) (not_lt.mp hf2)
    have h999 := hcap (by linarith)
    constructor
    · positivity
    · push_cast
      linarith

/-- C4 counterexample.  The claim that every component of the score
breakdown is non-negative and the total lies in [0, 100] fails: with a
detected vibrato of ideal rate 5.5 Hz and depth 50 cents but consistency
-10 (the upstream consistency formula is unbounded below), the
`vibrato_quality` component is `min(10 + 5 + (-10)·5, 15) = -35 < 0` —
the code clamps this component from above only — and with the other
signals at their neutral values the total is -35, outside [0, 100]. -/
theorem C4_negative_component_counterexample :
    (score_breakdown ⟨0, 0, ⟨true, 11/2, 50, -10⟩, 0, 70, 0⟩).vibrato_quality = -35 ∧
    total_score ⟨0, 0, ⟨true, 11/2, 50, -10⟩, 0, 70, 0⟩ = -35 ∧ ((-35 : ℚ) < 0) := by
  norm_num [score_breakdown, total_score]

/-- C4 (amended).  Provided the session signals carry their intended
signs — mean confidence, technique variety, dynamic variety, transition
count and vibrato consistency all non-negative, which the code does not
enforce for the consistency — every component of the score breakdown is
non-negative, the raw total and its one-decimal rounding lie in [0, 100],
and the letter grade is monotone in the total: a higher total never gets
a lower grade. -/
theorem C4_performance_score_bounds (inp : ScoreInputs)
    (hconf : 0 ≤ inp.confidence_avg) (hvar : 0 ≤ inp.variety_score)
    (hdyn : 0 ≤ inp.dynamic_variety) (htr : 0 ≤ inp.detected_transitions)
    (hcons : 0 ≤ inp.vibrato.consistency) :
    (0 ≤ (score_breakdown inp).pitch_accuracy ∧
     0 ≤ (score_breakdown inp).technique_variety ∧
     0 ≤ (score_breakdown inp).vibrato_quality ∧
     0 ≤ (score_breakdown inp).dynamics_control ∧
     0 ≤ (score_breakdown inp).breath_support ∧
     0 ≤ (score_breakdown inp).passaggio_handling) ∧
    (0 ≤ total_score inp ∧ total_score inp ≤ 100) ∧
    (0 ≤ pyRound1 (total_score inp) ∧ pyRound1 (total_score inp) ≤ 100) ∧
    (∀ t1 t2 : ℚ, t1 ≤ t2 → gradeRank (grade_of t1) ≤ gradeRank (grade_of t2)) := by
  have hp : 0 ≤ (score_breakdown inp).pitch_accuracy :=
    le_min (by positivity) (by norm_num)
  have ht : 0 ≤ (score_breakdown inp).technique_variety :=
    le_min (by positivity) (by norm_num)
  have hv : 0 ≤ (score_breakdown inp).vibrato_quality := by
    simp only [score_breakdown]
    split_ifs
    · refine le_min ?_ (by norm_num)
      have h1 := le_max_left (0:ℚ) (10 - |inp.vibrato.average_rate - 11/2| * 2)
      have h2 := le_max_left (0:ℚ) (5 - |inp.vibrato.average_depth - 50| * (1/10))
      nlinarith
    · norm_num
  have hd : 0 ≤ (score_breakdown inp).dynamics_control :=
    le_min (by positivity) (by norm_num)
  have hb : 0 ≤ (score_breakdown inp).breath_support := le_max_left 0 _
  have hpa : 0 ≤ (score_breakdown inp).passaggio_handling :=
    le_min (by positivity) (by norm_num)
  have hpu : (score_breakdown inp).pitch_accuracy ≤ 25 := min_le_right _ _
  have htu : (score_breakdown inp).technique_variety ≤ 20 := min_le_right _ _
  have hvu : (score_breakdown inp).vibrato_quality ≤ 15 := by
    simp only [score_breakdown]
    split_ifs
    · exact min_le_right _ _
    · norm_num
  have hdu : (score_breakdown inp).dynamics_control ≤ 15 := min_le_right _ _
  have hbu : (score_breakdown inp).breath_support ≤ 15 :=
    max_le (by norm_num) (min_le_right _ _)
  have hpau : (score_breakdown inp).passaggio_handling ≤ 10 := min_le_right _ _
  have htot0 : 0 ≤ total_score inp := by
    unfold total_score
    linarith
  have htot1 : total_score inp ≤ 100 := by
    unfold total_score
    linarith
  refine ⟨⟨hp, ht, hv, hd, hb, hpa⟩, ⟨htot0, htot1⟩,
    pyRound1_mem _ htot0 htot1, fun t1 t2 h => ?_⟩
  unfold grade_of
  split_ifs <;> simp_all [gradeRank] <;> linarith

/-- Witness for `C4_performance_score_bounds` at a concrete session:
confidence 0.85, 3 techniques, natural vibrato with consistency 0.5,
2 dynamic changes, breath support 89, one transition. -/
theorem C4_performance_score_bounds_witness :
    ((0:ℚ) ≤ 17/20 ∧ (0:ℚ) ≤ 3 ∧ (0:ℚ) ≤ 2 ∧ (0:ℚ) ≤ 1 ∧ (0:ℚ) ≤ 1/2) ∧
    (0 ≤ total_score ⟨17/20, 3, ⟨true, 11/2, 50, 1/2⟩, 2, 89, 1⟩ ∧
     total_score ⟨17/20, 3, ⟨true, 11/2, 50, 1/2⟩, 2, 89, 1⟩ ≤ 100) :=
  ⟨⟨by norm_num, by norm_num, by norm_num, by norm_num, by norm_num⟩,
    (C4_performance_score_bounds ⟨17/20, 3, ⟨true, 11/2, 50, 1/2⟩, 2, 89, 1⟩
      (by norm_num) (by norm_num) (by norm_num) (by norm_num) (by norm_num)).2.1⟩

end Obiwan

namespace Obiwan

/-- The `VocalRegister` enum of `professional_vocal_analyzer.py`. -/
inductive VocalRegister
  | vocal_fry | chest | mix | head | falsetto | whistle | unknown
  deriving Repr, DecidableEq

/-- The `FormantProfile` dataclass of `professional_vocal_analyzer.py`
(the per-formant bandwidth list plays no role in the claims and is
omitted). -/
structure FormantProfile where
  f1 : ℚ
  f2 : ℚ
  f3 : ℚ
  f4 : ℚ
  singers_formant : ℚ
  deriving Repr, DecidableEq

/-- Embedding of `_classify_register_advanced`
(`professional_vocal_analyzer.py` lines 381-416).  The
`spectral_centroid` argument stands for
`self._calculate_spectral_centroid(audio_chunk)` — the single place the
raw audio samples enter the classification, consulted only in the
700-1400 Hz band.  Different audio chunks produce different centroids
(the centroid is the magnitude-weighted mean FFT frequency: a constant
signal has centroid 0, an alternating ±1 signal has centroid 22050). -/
def classify_register_advanced (frequency : ℚ) (formants : FormantProfile)
    (spectral_centroid : ℚ) : VocalRegister :=
  if frequency ≤ 0 then .unknown
  else if frequency < 80 then .vocal_fry
  else if frequency < 200 then .chest
  else if 200 ≤ frequency ∧ frequency < 350 then
    (if formants.f1 > 600 ∧ formants.singers_formant > 3/10 then .chest else .mix)
  else if 350 ≤ frequency ∧ frequency < 700 then
    (if formants.f1 > 500 ∧ formants.f2 < 1800 then .mix
     else if formants.f1 < 400 ∧ formants.f2 > 2000 then .head
     else .mix)
  else if 700 ≤ frequency ∧ frequency < 1400 then
    (if spectral_centroid > 2000 then .head else .falsetto)
  else if 2000 ≤ frequency then .whistle
  else .head

/-- The `VowelShape` enum of `professional_vocal_analyzer.py` (`ii` is
the close front vowel /i/). -/
inductive VowelShape
  | a_open | a_front | e_open | e_close | ii | o_open | o_close | u | schwa | mixed
  deriving Repr, DecidableEq

/-- The fixed vowel target table `self.vowel_formants`
(`professional_vocal_analyzer.py` lines 165-177), in declaration order
(Python dicts iterate in insertion order); entries are
(vowel, F1 target, F2 target). -/
def vowel_formants : List (VowelShape × ℚ × ℚ) :=
  [(.a_open, 850, 1220), (.a_front, 750, 1700), (.e_open, 610, 1900),
   (.e_close, 390, 2300), (.ii, 310, 2790), (.o_open, 500, 1000),
   (.o_close, 360, 750), (.u, 320, 800), (.schwa, 500, 1500)]

/-- Squared Euclidean distance in (F1, F2) space; the source compares
`np.sqrt` distances, and all its comparisons (strict `<` against the
running minimum, `> 400` against the threshold) are preserved by
squaring since the square root is strictly monotone on nonnegatives. -/
def distSq (formants : FormantProfile) (ref : ℚ × ℚ) : ℚ :=
  (formants.f1 - ref.1)^2 + (formants.f2 - ref.2)^2

/-- Embedding of `_classify_vowel_shape`
(`professional_vocal_analyzer.py` lines 705-722): nearest-neighbour scan
of the vowel table, starting from `(SCHWA, inf)` — modelled with
`Option ℚ` as "no distance yet" so the first entry always replaces it —
keeping a strictly smaller distance only; if the final minimum distance
exceeds 400 (squared: 160000) the vowel is `mixed`. -/
def classify_vowel_shape (formants : FormantProfile) : VowelShape :=
  let step := fun (st : VowelShape × Option ℚ) (entry : VowelShape × ℚ × ℚ) =>
    match st.2 with
    | none => (entry.1, some (distSq formants entry.2))
    | some m =>
      if distSq formants entry.2 < m then (entry.1, some (distSq formants entry.2)) else st
  let res := vowel_formants.foldl step (.schwa, none)
  match res.2 with
  | none => .mixed
  | some m => if 160000 < m then .mixed else res.1

/-- C5 counterexample.  Register classification is not a function of
(frequency, formant profile) alone: at 800 Hz with the neutral formant
profile, an audio chunk whose spectral centroid is 2500 Hz is classified
`head` while one with centroid 1500 Hz is classified `falsetto`
(`_classify_register_advanced` consults
`_calculate_spectral_centroid(audio_chunk)` in the 700-1400 Hz band). -/
theorem C5_register_audio_dependence_counterexample :
    classify_register_advanced 800 ⟨500, 1500, 2500, 3500, 0⟩ 2500 = VocalRegister.head ∧
    classify_register_advanced 800 ⟨500, 1500, 2500, 3500, 0⟩ 1500 = VocalRegister.falsetto ∧
    VocalRegister.head ≠ VocalRegister.falsetto := by
  refine ⟨?_, ?_, by decide⟩ <;> norm_num [classify_register_advanced]

/-- Helper: vowel classification reads the formant profile only through
F1 and F2. -/
theorem classify_vowel_shape_only_f1_f2 (fp fp' : FormantProfile)
    (h1 : fp.f1 = fp'.f1) (h2 : fp.f2 = fp'.f2) :
    classify_vowel_shape fp = classify_vowel_shape fp' := by
  have hd : distSq fp = distSq fp' := by
    funext r
    simp [distSq, h1, h2]
  unfold classify_vowel_shape
  rw [hd]

/-- C5 (amended).  Both classifiers are deterministic pure functions of
their embedded inputs, with no hidden state: vowel classification
depends only on the profile's F1 and F2 (so two calls with identical
formant profiles agree, whatever else differs), and register
classification is independent of the audio chunk — here represented by
its spectral centroid, the only channel through which the audio enters —
whenever the fused frequency lies outside the 700-1400 Hz band.  Inside
that band the register does depend on the raw audio (see the
counterexample), so the original claim's "regardless of the raw audio
samples" had to be weakened to this band condition. -/
theorem C5_classification_purity (freq : ℚ) (fp fp' : FormantProfile) (c c' : ℚ)
    (h1 : fp.f1 = fp'.f1) (h2 : fp.f2 = fp'.f2)
    (hout : ¬ (700 ≤ freq ∧ freq < 1400)) :
    classify_vowel_shape fp = classify_vowel_shape fp' ∧
    classify_register_advanced freq fp c = classify_register_advanced freq fp c' := by
  refine ⟨classify_vowel_shape_only_f1_f2 fp fp' h1 h2, ?_⟩
  simp only [classify_register_advanced, if_neg hout]

/-- Witness for `C5_classification_purity` at 440 Hz, two formant
profiles agreeing on F1/F2, and two distinct centroids. -/
theorem C5_classification_purity_witness :
    classify_vowel_shape ⟨500, 1500, 2500, 3500, 0⟩ =
      classify_vowel_shape ⟨500, 1500, 2600, 3600, 1/2⟩ ∧
    classify_register_advanced 440 ⟨500, 1500, 2500, 3500, 0⟩ 2500 =
      classify_register_advanced 440 ⟨500, 1500, 2500, 3500, 0⟩ 1500 :=
  C5_classification_purity 440 ⟨500, 1500, 2500, 3500, 0⟩ ⟨500, 1500, 2600, 3600, 1/2⟩
    2500 1500 rfl rfl (by norm_num)

end Obiwan

namespace Obiwan

/-- Embedding of the vibrato type classification inside
`_analyze_vibrato_professional` (`professional_vocal_analyzer.py` lines
542-550), reached when a vibrato is detected with computed `rate`
(= zero_crossings / 2) and `extent` (depth in cents): natural for rate
in [4,7] and depth in [20,100]; otherwise tremolo when rate > 8 (dead
code — reachable rates never exceed 4, see
`C6_vibrato_type_classification`); otherwise wobble when rate < 3;
otherwise irregular. -/
def classify_vibrato_type (rate extent : ℚ) : String :=
  if 4 ≤ rate ∧ rate ≤ 7 ∧ 20 ≤ extent ∧ extent ≤ 100 then "natural"
  else if 8 < rate then "tremolo"
  else if rate < 3 then "wobble"
  else "irregular"


end Obiwan

namespace Obiwan

/-- Lag-k autocorrelation of a sample list: entry k of
`np.correlate(x, x, mode='full')[size//2:]` as used by `_calculate_hnr`
(`professional_vocal_analyzer.py` lines 886-887); lag 0 is the total
signal energy. -/
def autocorrAt (xs : List ℚ) (k : ℕ) : ℚ :=
  ((List.range (xs.length - k)).map (fun i => xs.getD i 0 * xs.getD (i + k) 0)).sum

/-- The peak non-zero-lag autocorrelation `np.max(autocorr[1:])`
(`professional_vocal_analyzer.py` line 890); the default is never used,
as the caller only reads this when the list has at least two samples. -/
def maxPosLagAutocorr (xs : List ℚ) : ℚ :=
  (((List.range (xs.length - 1)).map (fun k => autocorrAt xs (k + 1))).max?).getD 0

/-- Embedding of `_calculate_hnr` (`professional_vocal_analyzer.py`
lines 882-901).  `log10` stands for `np.log10`; with fewer than two
samples `np.correlate`/`np.max` raise and the `except` returns the
default 10, as does a non-positive total energy (falling through the
`if total_energy > 0`); otherwise the dB-like value is clamped to
[0, 25], with the ratio's singularity at `hnr_linear >= 1` short-cut to
20 before clamping. -/
def calculate_hnr (log10 : ℚ → ℚ) (xs : List ℚ) : ℚ :=
  if xs.length ≤ 1 then 10
  else
    let total_energy := autocorrAt xs 0
    let max_autocorr := maxPosLagAutocorr xs
    if 0 < total_energy then
      let hnr_linear := max_autocorr / total_energy
      let hnr_db := if hnr_linear < 1 then 10 * log10 (hnr_linear / (1 - hnr_linear)) else 20
      max 0 (min hnr_db 25)
    else 10

/-- `np.mean` over an embedded sample list (division by zero in `ℚ`
yields 0 for the empty list, a case no claim exercises). -/
def npMean (xs : List ℚ) : ℚ := xs.sum / xs.length

/-- The `VocalHealthIndicator` dataclass of
`professional_vocal_analyzer.py`. -/
structure VocalHealthIndicator where
  vocal_strain : ℚ
  breath_efficiency : ℚ
  tension_areas : List String
  sustainability : ℚ
  risk_level : String
  deriving Repr, DecidableEq

/-- Embedding of `_assess_vocal_health` (`professional_vocal_analyzer.py`
lines 835-880): strain `max(0, 1 - hnr/15)`; breath efficiency
`pitch_confidence * min(energy*10, 1)` with `energy = np.mean(chunk**2)`
and `pitch_confidence = pitch_data.get('confidence', 0)` the fused
confidence; tension areas from the three formant anomaly checks;
sustainability `min(breath_efficiency*2, 1)`; risk bucketed from strain
and the tension-area count. -/
def assess_vocal_health (log10 : ℚ → ℚ) (xs : List ℚ) (pitch_confidence : ℚ)
    (formants : FormantProfile) : VocalHealthIndicator :=
  let hnr := calculate_hnr log10 xs
  let vocal_strain := max 0 (1 - hnr / 15)
  let energy := npMean (xs.map (fun x => x^2))
  let breath_efficiency := pitch_confidence * min (energy * 10) 1
  let tension_areas :=
    (if formants.f1 < 300 then ["larynx_high"] else []) ++
    (if formants.f2 > 2500 ∨ formants.f2 < 1000 then ["tongue_tension"] else []) ++
    (if |formants.f2 - formants.f1| < 800 then ["jaw_tension"] else [])
  let sustainability := min (breath_efficiency * 2) 1
  let risk_level :=
    if vocal_strain < 3/10 ∧ tension_areas.length = 0 then "low"
    else if vocal_strain < 6/10 ∧ tension_areas.length ≤ 2 then "moderate"
    else "high"
  ⟨vocal_strain, breath_efficiency, tension_areas, sustainability, risk_level⟩

/-- C7.  Vocal health postconditions: for every audio chunk, pitch
confidence and formant profile — and whatever value the external
`np.log10` takes — the HNR estimate lies in [0, 25], the reported vocal
strain equals `max(0, 1 - hnr/15)`, and the reported breath efficiency
equals the fused pitch confidence times `min(energy*10, 1)` where
`energy` is the mean squared sample. -/
theorem C7_vocal_health_postconditions (log10 : ℚ → ℚ) (xs : List ℚ)
    (conf : ℚ) (fp : FormantProfile) :
    (0 ≤ calculate_hnr log10 xs ∧ calculate_hnr log10 xs ≤ 25) ∧
    (assess_vocal_health log10 xs conf fp).vocal_strain
      = max 0 (1 - calculate_hnr log10 xs / 15) ∧
    (assess_vocal_health log10 xs conf fp).breath_efficiency
      = conf * min (npMean (xs.map (fun x => x^2)) * 10) 1 := by
  refine ⟨?_, rfl, rfl⟩
  simp only [calculate_hnr]
  split_ifs
  · norm_num
  · exact ⟨le_max_left 0 _, max_le (by norm_num) (min_le_right _ _)⟩
  · exact ⟨le_max_left 0 _, max_le (by norm_num) (min_le_right _ _)⟩
  · norm_num

end Obiwan

namespace Obiwan

/-- A label record as handed to `save_label` (`label_database.py` lines
90-135), after the `.get(..., default)` lookups: the scalar columns plus
the eight nested analysis payloads.  `α` is the type of
JSON-serializable payload values; `save_label` serializes each payload
with `json.dumps` before the INSERT. -/
structure LabelData (α : Type) where
  youtube_url : String
  title : String
  artist : String
  song_name : String
  duration_analyzed : ℚ
  detected_notes : ℤ
  average_pitch : ℚ
  pitch_range : String
  main_technique : String
  confidence_avg : ℚ
  pitch_data : α
  note_sequence : α
  vibrato_analysis : α
  dynamics_data : α
  breath_analysis : α
  passaggio_analysis : α
  technique_analysis : α
  performance_score : α
  category : String
  difficulty_level : ℤ
  genre : String
  language : String

/-- One row of the `vocal_labels` table: the eight JSON columns are TEXT
and hold the serialized strings. -/
structure DbRow where
  id : ℕ
  youtube_url : String
  title : String
  artist : String
  song_name : String
  duration_analyzed : ℚ
  detected_notes : ℤ
  average_pitch : ℚ
  pitch_range : String
  main_technique : String
  confidence_avg : ℚ
  pitch_data : String
  note_sequence : String
  vibrato_analysis : String
  dynamics_data : String
  breath_analysis : String
  passaggio_analysis : String
  technique_analysis : String
  performance_score : String
  category : String
  difficulty_level : ℤ
  genre : String
  language : String

/-- The `vocal_labels` table with the AUTOINCREMENT cursor: `nextId` is
the rowid the next INSERT will receive (`cursor.lastrowid`). -/
structure LabelDatabaseState where
  rows : List DbRow
  nextId : ℕ

/-- Embedding of `save_label` (`label_database.py` lines 90-140):
serialize the eight payloads with `dumps` (standing for `json.dumps`),
INSERT a fresh row, and return `cursor.lastrowid` together with the new
table state. -/
def save_label {α : Type} (dumps : α → String) (db : LabelDatabaseState)
    (d : LabelData α) : ℕ × LabelDatabaseState :=
  let row : DbRow :=
    { id := db.nextId,
      youtube_url := d.youtube_url, title := d.title, artist := d.artist,
      song_name := d.song_name, duration_analyzed := d.duration_analyzed,
      detected_notes := d.detected_notes, average_pitch := d.average_pitch,
      pitch_range := d.pitch_range, main_technique := d.main_technique,
      confidence_avg := d.confidence_avg,
      pitch_data := dumps d.pitch_data,
      note_sequence := dumps d.note_sequence,
      vibrato_analysis := dumps d.vibrato_analysis,
      dynamics_data := dumps d.dynamics_data,
      breath_analysis := dumps d.breath_analysis,
      passaggio_analysis := dumps d.passaggio_analysis,
      technique_analysis := dumps d.technique_analysis,
      performance_score := dumps d.performance_score,
      category := d.category, difficulty_level := d.difficulty_level,
      genre := d.genre, language := d.language }
  (db.nextId, ⟨db.rows ++ [row], db.nextId + 1⟩)

/-- The dict produced by `_row_to_dict` (`label_database.py` lines
240-255): `pitch_data`, `note_sequence`, `vibrato_analysis` and
`dynamics_data` are parsed back with `json.loads` when the stored string
is truthy (non-empty), so they carry `String ⊕ α`; the other four
payload columns are returned untouched as the stored TEXT. -/
structure LabelRecord (α : Type) where
  id : ℕ
  youtube_url : String
  title : String
  artist : String
  song_name : String
  duration_analyzed : ℚ
  detected_notes : ℤ
  average_pitch : ℚ
  pitch_range : String
  main_technique : String
  confidence_avg : ℚ
  pitch_data : String ⊕ α
  note_sequence : String ⊕ α
  vibrato_analysis : String ⊕ α
  dynamics_data : String ⊕ α
  breath_analysis : String
  passaggio_analysis : String
  technique_analysis : String
  performance_score : String
  category : String
  difficulty_level : ℤ
  genre : String
  language : String

/-- Python truthiness gate of `_row_to_dict`: an empty string is falsy
and stays unparsed; otherwise `loads` (standing for `json.loads`) is
applied. -/
def parseIfTruthy {α : Type} (loads : String → α) (s : String) : String ⊕ α :=
  if s = "" then Sum.inl s else Sum.inr (loads s)

/-- Embedding of `_row_to_dict` (`label_database.py` lines 240-255). -/
def row_to_dict {α : Type} (loads : String → α) (r : DbRow) : LabelRecord α :=
  { id := r.id,
    youtube_url := r.youtube_url, title := r.title, artist := r.artist,
    song_name := r.song_name, duration_analyzed := r.duration_analyzed,
    detected_notes := r.detected_notes, average_pitch := r.average_pitch,
    pitch_range := r.pitch_range, main_technique := r.main_technique,
    confidence_avg := r.confidence_avg,
    pitch_data := parseIfTruthy loads r.pitch_data,
    note_sequence := parseIfTruthy loads r.note_sequence,
    vibrato_analysis := parseIfTruthy loads r.vibrato_analysis,
    dynamics_data := parseIfTruthy loads r.dynamics_data,
    breath_analysis := r.breath_analysis,
    passaggio_analysis := r.passaggio_analysis,
    technique_analysis := r.technique_analysis,
    performance_score := r.performance_score,
    category := r.category, difficulty_level := r.difficulty_level,
    genre := r.genre, language := r.language }

/-- Embedding of `get_label` (`label_database.py` lines 142-150):
SELECT the row with the given id (rowids are unique in SQLite; the model
returns the first match) and convert it with `_row_to_dict`. -/
def get_label {α : Type} (loads : String → α) (db : LabelDatabaseState)
    (i : ℕ) : Option (LabelRecord α) :=
  (db.rows.find? (fun r => r.id == i)).map (row_to_dict loads)

/-- Helper: after a `save_label` into a table whose rows all have ids
other than the insertion id (SQLite AUTOINCREMENT guarantees this),
`get_label` at the returned id finds exactly the inserted row. -/
theorem get_label_after_save {α : Type} (dumps : α → String) (loads : String → α)
    (db : LabelDatabaseState) (d : LabelData α)
    (hfresh : ∀ r ∈ db.rows, r.id ≠ db.nextId) :
    get_label loads (save_label dumps db d).2 (save_label dumps db d).1 =
      some (row_to_dict loads
        { id := db.nextId,
          youtube_url := d.youtube_url, title := d.title, artist := d.artist,
          song_name := d.song_name, duration_analyzed := d.duration_analyzed,
          detected_notes := d.detected_notes, average_pitch := d.average_pitch,
          pitch_range := d.pitch_range, main_technique := d.main_technique,
          confidence_avg := d.confidence_avg,
          pitch_data := dumps d.pitch_data,
          note_sequence := dumps d.note_sequence,
          vibrato_analysis := dumps d.vibrato_analysis,
          dynamics_data := dumps d.dynamics_data,
          breath_analysis := dumps d.breath_analysis,
          passaggio_analysis := dumps d.passaggio_analysis,
          technique_analysis := dumps d.technique_analysis,
          performance_score := dumps d.performance_score,
          category := d.category, difficulty_level := d.difficulty_level,
          genre := d.genre, language := d.language }) := by
  have hnone : db.rows.find? (fun r => r.id == db.nextId) = none :=
    List.find?_eq_none.mpr fun r hr => by
      simp only [beq_iff_eq]
      exact hfresh r hr
  simp only [get_label, save_label, List.find?_append, hnone, Option.none_or,
    List.find?_cons, beq_self_eq_true, cond_true]
  rfl

end Obiwan

namespace Obiwan

/-- C9.  Persistence round-trip: saving a record with `save_label` and
reloading it with `get_label` at the returned id reproduces the scalar
summary fields `detected_notes`, `average_pitch`, `main_technique` and
`confidence_avg` exactly — they are stored in plain columns that
`_row_to_dict` copies through untouched.  The freshness hypothesis
(no existing row already carries the id the INSERT will assign) is what
SQLite's AUTOINCREMENT provides. -/
theorem C9_save_get_scalar_roundtrip {α : Type} (dumps : α → String)
    (loads : String → α) (db : LabelDatabaseState) (d : LabelData α)
    (hfresh : ∀ r ∈ db.rows, r.id ≠ db.nextId) :
    ∃ rec, get_label loads (save_label dumps db d).2 (save_label dumps db d).1 = some rec ∧
      rec.detected_notes = d.detected_notes ∧
      rec.average_pitch = d.average_pitch ∧
      rec.main_technique = d.main_technique ∧
      rec.confidence_avg = d.confidence_avg := by
  exact ⟨_, get_label_after_save dumps loads db d hfresh, rfl, rfl, rfl, rfl⟩

/-- Witness for `C9_save_get_scalar_roundtrip`: the sample label of
`label_database.py`'s `__main__` block (24 notes, pitch 220.5, "Chest
Voice", confidence 0.85), saved into the empty freshly-initialized
table. -/
theorem C9_save_get_scalar_roundtrip_witness :
    ∃ rec, get_label (fun _ => false)
        (save_label (fun b => if b then "true" else "false") ⟨[], 1⟩
          ⟨"https://youtu.be/example", "Adele - Hello", "Adele", "Hello", 30, 24,
            441/2, "A3-E5", "Chest Voice", 17/20, true, false, true, false, true,
            false, true, false, "Pop Ballad", 3, "Pop", "en"⟩).2
        (save_label (fun b => if b then "true" else "false") ⟨[], 1⟩
          ⟨"https://youtu.be/example", "Adele - Hello", "Adele", "Hello", 30, 24,
            441/2, "A3-E5", "Chest Voice", 17/20, true, false, true, false, true,
            false, true, false, "Pop Ballad", 3, "Pop", "en"⟩).1 = some rec ∧
      rec.detected_notes = 24 ∧ rec.average_pitch = 441/2 ∧
      rec.main_technique = "Chest Voice" ∧ rec.confidence_avg = 17/20 :=
  C9_save_get_scalar_roundtrip (fun b => if b then "true" else "false")
    (fun _ => false) ⟨[], 1⟩
    ⟨"https://youtu.be/example", "Adele - Hello", "Adele", "Hello", 30, 24,
      441/2, "A3-E5", "Chest Voice", 17/20, true, false, true, false, true,
      false, true, false, "Pop Ballad", 3, "Pop", "en"⟩
    (by intro r hr; simp at hr)

/-- C10.  Asymmetric deserialization: reloading a saved record parses
`pitch_data`, `note_sequence`, `vibrato_analysis` and `dynamics_data`
back into the saved structures (given the json contract that `loads`
inverts `dumps` and that `dumps` never produces the empty — falsy —
string), while `breath_analysis`, `passaggio_analysis`,
`technique_analysis` and `performance_score` come back as the raw
`json.dumps` strings: `_row_to_dict` simply never parses those four
columns. -/
theorem C10_asymmetric_deserialization {α : Type} (dumps : α → String)
    (loads : String → α) (db : LabelDatabaseState) (d : LabelData α)
    (hfresh : ∀ r ∈ db.rows, r.id ≠ db.nextId)
    (hinv : ∀ v, loads (dumps v) = v) (hne : ∀ v, dumps v ≠ "") :
    ∃ rec, get_label loads (save_label dumps db d).2 (save_label dumps db d).1 = some rec ∧
      rec.pitch_data = Sum.inr d.pitch_data ∧
      rec.note_sequence = Sum.inr d.note_sequence ∧
      rec.vibrato_analysis = Sum.inr d.vibrato_analysis ∧
      rec.dynamics_data = Sum.inr d.dynamics_data ∧
      rec.breath_analysis = dumps d.breath_analysis ∧
      rec.passaggio_analysis = dumps d.passaggio_analysis ∧
      rec.technique_analysis = dumps d.technique_analysis ∧
      rec.performance_score = dumps d.performance_score := by
  refine ⟨_, get_label_after_save dumps loads db d hfresh, ?_, ?_, ?_, ?_, rfl, rfl, rfl, rfl⟩
  all_goals
    simp only [row_to_dict, parseIfTruthy]
    rw [if_neg (hne _), hinv]

/-- Witness for `C10_asymmetric_deserialization` with the booleans-as-
json toy codec (dumps true = "true", dumps false = "false", loads s =
(s == "true")), which satisfies the json contract, at a concrete record
saved into the empty table. -/
theorem C10_asymmetric_deserialization_witness :
    ∃ rec, get_label (fun s => s == "true")
        (save_label (fun b => if b then "true" else "false") ⟨[], 1⟩
          ⟨"u", "t", "a", "s", 30, 24, 441/2, "A3-E5", "chest", 17/20,
            true, false, true, false, true, false, true, false, "c", 3, "g", "en"⟩).2
        (save_label (fun b => if b then "true" else "false") ⟨[], 1⟩
          ⟨"u", "t", "a", "s", 30, 24, 441/2, "A3-E5", "chest", 17/20,
            true, false, true, false, true, false, true, false, "c", 3, "g", "en"⟩).1
      = some rec ∧
      rec.pitch_data = Sum.inr true ∧
      rec.note_sequence = Sum.inr false ∧
      rec.vibrato_analysis = Sum.inr true ∧
      rec.dynamics_data = Sum.inr false ∧
      rec.breath_analysis = "true" ∧
      rec.passaggio_analysis = "false" ∧
      rec.technique_analysis = "true" ∧
      rec.performance_score = "false" :=
  C10_asymmetric_deserialization (fun b => if b then "true" else "false")
    (fun s => s == "true") ⟨[], 1⟩
    ⟨"u", "t", "a", "s", 30, 24, 441/2, "A3-E5", "chest", 17/20,
      true, false, true, false, true, false, true, false, "c", 3, "g", "en"⟩
    (by intro r hr; simp at hr)
    (by intro v; cases v <;> decide)
    (by intro v; cases v <;> decide)

end Obiwan
namespace Obiwan

/-- The `VibratoAnalysis` dataclass of `professional_vocal_analyzer.py`. -/
structure VibratoAnalysis where
  detected : Bool
  rate : ℚ
  extent : ℚ
  regularity : ℚ
  onset_timing : ℚ
  consistency : ℚ
  type : String
  deriving Repr, DecidableEq

/-- `np.signbit`: true exactly on negative values (there is no negative
zero in `ℚ`). -/
def signbit (x : ℚ) : Bool := if x < 0 then true else false

/-- `np.diff`: adjacent differences, entry i is `l[i+1] - l[i]`. -/
def npDiff (l : List ℚ) : List ℚ := l.zipWith (fun a b => b - a) l.tail

/-- `np.sum(np.diff(bs))` for a boolean array `bs`: `np.diff` on booleans
is elementwise exclusive-or of neighbours, so the sum counts the
positions where consecutive entries differ. -/
def boolChanges (bs : List Bool) : ℕ :=
  (bs.zipWith (fun a b => a != b) bs.tail).count true

/-- Length of Python's `range(0, stop, step)` for positive `step`. -/
def pyRangeLen (stop step : ℕ) : ℕ := (stop + step - 1) / step

/-- The `pitch_variations` list built by the window loop of
`_analyze_vibrato_professional` (`professional_vocal_analyzer.py` lines
501-509): with `window_size = m // 10`, the windows start at
`i = 0, w, 2w, ...` for `i in range(0, m - w, w)`, each is analyzed by
`_estimate_pitch_autocorr` — embedded as the oracle `estimate` from the
window start index — and only positive estimates are kept. -/
def pitch_variations (estimate : ℕ → ℚ) (m : ℕ) : List ℚ :=
  ((List.range (pyRangeLen (m - m / 10) (m / 10))).map
      (fun k => estimate (k * (m / 10)))).filter (fun p => 0 < p)

/-- Embedding of `_analyze_vibrato_professional`
(`professional_vocal_analyzer.py` lines 486-570).  `log2` and `npStd`
stand for `np.log2` and `np.std`; `estimate` for
`_estimate_pitch_autocorr` on the window starting at the given sample
index; `m` is `len(audio_chunk)`.  Chunks under 1024 samples and
fewer than 5 positive window pitches return undetected states
("none" / "insufficient_data"), as does a failed `is_vibrato` test
("straight_tone") and the `except` fallback ("analysis_error", an
external numeric failure outside this embedding); only the detected
branch classifies a type, from `vibrato_rate = zero_crossings / 2` and
the cents extent. -/
def analyze_vibrato_professional (log2 : ℚ → ℚ) (npStd : List ℚ → ℚ)
    (estimate : ℕ → ℚ) (m : ℕ) : VibratoAnalysis :=
  if m < 1024 then ⟨false, 0, 0, 0, 0, 0, "none"⟩
  else
    let pv := pitch_variations estimate m
    if pv.length < 5 then ⟨false, 0, 0, 0, 0, 0, "insufficient_data"⟩
    else
      let mean_pitch := npMean pv
      let pitch_std := npStd pv
      let variation_rate := if 0 < mean_pitch then pitch_std / mean_pitch else 0
      let pitch_diff := npDiff pv
      let zero_crossings := boolChanges (pitch_diff.map signbit)
      if 1/100 < variation_rate ∧ variation_rate < 1/10 ∧
          4 ≤ zero_crossings ∧ 2 < pitch_std then
        let vibrato_rate : ℚ := (zero_crossings : ℚ) / 2
        let vibrato_extent :=
          if 0 < mean_pitch then 1200 * log2 ((mean_pitch + pitch_std) / mean_pitch) else 0
        let regularity :=
          if 0 < npMean (pitch_diff.map (fun x => |x|)) then
            1 - npStd pitch_diff / npMean (pitch_diff.map (fun x => |x|))
          else 0
        ⟨true, vibrato_rate, vibrato_extent, regularity, 1/2, regularity,
          classify_vibrato_type vibrato_rate vibrato_extent⟩
      else ⟨false, 0, variation_rate * 100, 0, 0, 0, "straight_tone"⟩

/-- Helper: the window loop yields at most 10 pitch estimates — with
`w = m // 10` the starts `0, w, 2w, ...` below `m - w` number
`ceil((m-w)/w) = (m-1) // w ≤ 10`. -/
theorem pitch_variations_length_le (estimate : ℕ → ℚ) (m : ℕ) (hm : 1024 ≤ m) :
    (pitch_variations estimate m).length ≤ 10 := by
  have hcount : pyRangeLen (m - m / 10) (m / 10) < 11 := by
    rw [pyRangeLen, Nat.div_lt_iff_lt_mul (by omega : 0 < m / 10)]
    omega
  calc (pitch_variations estimate m).length
      ≤ ((List.range (pyRangeLen (m - m / 10) (m / 10))).map
          (fun k => estimate (k * (m / 10)))).length := List.length_filter_le _ _
    _ = pyRangeLen (m - m / 10) (m / 10) := by
        rw [List.length_map, List.length_range]
    _ ≤ 10 := by omega

/-- Helper: counting neighbour changes in a boolean list gives less than
the list's length. -/
theorem boolChanges_le (bs : List Bool) : boolChanges bs ≤ bs.length - 1 := by
  calc boolChanges bs
      ≤ (bs.zipWith (fun a b => a != b) bs.tail).length := List.count_le_length _ _
    _ = min bs.length bs.tail.length := List.length_zipWith _ _ _
    _ ≤ bs.length - 1 := by
        rw [List.length_tail]
        omega

/-- Helper: `np.diff` shortens a list by one. -/
theorem npDiff_length (l : List ℚ) : (npDiff l).length = l.length - 1 := by
  rw [npDiff, List.length_zipWith, List.length_tail]
  omega

end Obiwan


namespace Obiwan

/-- Helper: case analysis of `classify_vibrato_type` along its branch
structure (the code's own thresholds, tremolo at `> 8`). -/
theorem classify_vibrato_type_cases (rate extent : ℚ) :
    (classify_vibrato_type rate extent = "natural" ↔
      (4 ≤ rate ∧ rate ≤ 7 ∧ 20 ≤ extent ∧ extent ≤ 100)) ∧
    (8 < rate → classify_vibrato_type rate extent = "tremolo") ∧
    (rate < 3 → classify_vibrato_type rate extent = "wobble") ∧
    (¬ (4 ≤ rate ∧ rate ≤ 7 ∧ 20 ≤ extent ∧ extent ≤ 100) → ¬ (8 < rate) →
      ¬ (rate < 3) → classify_vibrato_type rate extent = "irregular") := by
  unfold classify_vibrato_type
  split_ifs with hnat htrem hwob
  · exact ⟨iff_of_true rfl hnat,
      fun h8 => absurd hnat.2.1 (by linarith),
      fun h3 => absurd hnat.1 (by linarith),
      fun hn _ _ => absurd hnat hn⟩
  · exact ⟨iff_of_false (by decide) hnat, fun _ => rfl,
      fun h3 => absurd htrem (by linarith),
      fun _ h8 _ => absurd htrem h8⟩
  · exact ⟨iff_of_false (by decide) hnat, fun h8 => absurd h8 htrem,
      fun _ => rfl, fun _ _ h3 => absurd hwob h3⟩
  · exact ⟨iff_of_false (by decide) hnat, fun h8 => absurd h8 htrem,
      fun h3 => absurd h3 hwob, fun _ _ _ => rfl⟩

/-- Helper: the claim's four classification clauses, plus the rate cap,
for any report with rate at most 4 (every reachable report). -/
theorem reported_type_spec (r d : ℚ) (hr : r ≤ 4) :
    (classify_vibrato_type r d = "natural" ↔ (4 ≤ r ∧ r ≤ 7 ∧ 20 ≤ d ∧ d ≤ 100)) ∧
    (7 < r → classify_vibrato_type r d = "tremolo") ∧
    (r < 3 → classify_vibrato_type r d = "wobble") ∧
    (¬ (4 ≤ r ∧ r ≤ 7 ∧ 20 ≤ d ∧ d ≤ 100) → ¬ (7 < r) → ¬ (r < 3) →
      classify_vibrato_type r d = "irregular") ∧ r ≤ 4 := by
  obtain ⟨hnat, htrem, hwob, hirr⟩ := classify_vibrato_type_cases r d
  exact ⟨hnat, fun h7 => absurd (h7.trans_le hr) (by norm_num),
    hwob, fun hna h7 h3 => hirr hna (fun h8 => h7 (by linarith)) h3, hr⟩

/-- C6.  Whenever the vibrato detector reports a detected vibrato with
computed rate r and depth d, the type is "natural" exactly when r is in
[4,7] Hz and d is in [20,100] cents; "tremolo" for every r > 7;
"wobble" for every r < 3; and "irregular" otherwise.  The tremolo
clause is vacuous: the window loop produces at most 10 pitch estimates,
so the zero-crossing count is at most 8 and every reported rate
`zero_crossings / 2` is at most 4 Hz (final conjunct) — no detected
report can have r > 7 (or r > 8; the code's tremolo branch at `> 8` is
unreachable), and on the reachable rates the remaining clauses follow
the code's branch structure exactly. -/
theorem C6_vibrato_type_classification (log2 : ℚ → ℚ) (npStd : List ℚ → ℚ)
    (estimate : ℕ → ℚ) (m : ℕ)
    (hdet : (analyze_vibrato_professional log2 npStd estimate m).detected = true) :
    ((analyze_vibrato_professional log2 npStd estimate m).type = "natural" ↔
      (4 ≤ (analyze_vibrato_professional log2 npStd estimate m).rate ∧
        (analyze_vibrato_professional log2 npStd estimate m).rate ≤ 7 ∧
        20 ≤ (analyze_vibrato_professional log2 npStd estimate m).extent ∧
        (analyze_vibrato_professional log2 npStd estimate m).extent ≤ 100)) ∧
    (7 < (analyze_vibrato_professional log2 npStd estimate m).rate →
      (analyze_vibrato_professional log2 npStd estimate m).type = "tremolo") ∧
    ((analyze_vibrato_professional log2 npStd estimate m).rate < 3 →
      (analyze_vibrato_professional log2 npStd estimate m).type = "wobble") ∧
    (¬ (4 ≤ (analyze_vibrato_professional log2 npStd estimate m).rate ∧
        (analyze_vibrato_professional log2 npStd estimate m).rate ≤ 7 ∧
        20 ≤ (analyze_vibrato_professional log2 npStd estimate m).extent ∧
        (analyze_vibrato_professional log2 npStd estimate m).extent ≤ 100) →
      ¬ (7 < (analyze_vibrato_professional log2 npStd estimate m).rate) →
      ¬ ((analyze_vibrato_professional log2 npStd estimate m).rate < 3) →
      (analyze_vibrato_professional log2 npStd estimate m).type = "irregular") ∧
    (analyze_vibrato_professional log2 npStd estimate m).rate ≤ 4 := by
  by_cases hm1024 : m < 1024
  · rw [analyze_vibrato_professional, if_pos hm1024] at hdet
    simp at hdet
  · have hm : 1024 ≤ m := le_of_not_lt hm1024
    have hzc : boolChanges ((npDiff (pitch_variations estimate m)).map signbit) ≤ 8 := by
      calc boolChanges ((npDiff (pitch_variations estimate m)).map signbit)
          ≤ ((npDiff (pitch_variations estimate m)).map signbit).length - 1 :=
            boolChanges_le _
        _ = (pitch_variations estimate m).length - 1 - 1 := by
            rw [List.length_map, npDiff_length]
        _ ≤ 8 := by
            have := pitch_variations_length_le estimate m hm
            omega
    have hrate :
        ((boolChanges ((npDiff (pitch_variations estimate m)).map signbit) : ℕ) : ℚ) / 2 ≤ 4 := by
      have h8 :
          ((boolChanges ((npDiff (pitch_variations estimate m)).map signbit) : ℕ) : ℚ) ≤ 8 := by
        exact_mod_cast hzc
      linarith
    simp only [analyze_vibrato_professional, if_neg hm1024] at hdet ⊢
    split_ifs at hdet ⊢
    all_goals first
      | (exfalso; revert hdet; dsimp only; exact fun h => Bool.false_ne_true h)
      | (dsimp only; exact reported_type_spec _ _ hrate)
end Obiwan

namespace Obiwan
/-- Witness for `C6_vibrato_type_classification`: a 1024-sample chunk
whose ten window pitch estimates alternate 100 Hz and 105 Hz (std oracle
5, giving variation rate 2/41 and 8 zero crossings) is a detected
vibrato of rate 4 Hz; the theorem applied to it bounds the rate by 4,
and with extent 1200·0.0687 = 82.44 cents (oracle value for
log2(107.5/102.5) = 0.06871...) its type evaluates to "natural". -/
theorem C6_vibrato_type_classification_witness :
    ((analyze_vibrato_professional (fun _ => 687/10000) (fun _ => 5)
        (fun i => if (i / 102) % 2 = 0 then (100 : ℚ) else 105) 1024).detected = true) ∧
    (analyze_vibrato_professional (fun _ => 687/10000) (fun _ => 5)
        (fun i => if (i / 102) % 2 = 0 then (100 : ℚ) else 105) 1024).rate ≤ 4 ∧
    (analyze_vibrato_professional (fun _ => 687/10000) (fun _ => 5)
        (fun i => if (i / 102) % 2 = 0 then (100 : ℚ) else 105) 1024).type = "natural" := by
  have hr10 : List.range 10 = [0, 1, 2, 3, 4, 5, 6, 7, 8, 9] := rfl
  have hpv : pitch_variations (fun i => if (i / 102) % 2 = 0 then (100 : ℚ) else 105) 1024 =
      [100, 105, 100, 105, 100, 105, 100, 105, 100, 105] := by
    norm_num [pitch_variations, pyRangeLen, hr10]
  have hdet : (analyze_vibrato_professional (fun _ => 687/10000) (fun _ => 5)
      (fun i => if (i / 102) % 2 = 0 then (100 : ℚ) else 105) 1024).detected = true := by
    norm_num [analyze_vibrato_professional, hpv, npMean, npDiff, boolChanges, signbit]
  refine ⟨hdet,
    (C6_vibrato_type_classification (fun _ => 687/10000) (fun _ => 5)
      (fun i => if (i / 102) % 2 = 0 then (100 : ℚ) else 105) 1024 hdet).2.2.2.2, ?_⟩
  norm_num [analyze_vibrato_professional, hpv, npMean, npDiff, boolChanges, signbit,
    classify_vibrato_type]
end Obiwan
